import Mathlib

/-!
Verification of the Bedrock microservice Lambda handler
(`src/lambda/lambda_function.py`).

The Python module is shallowly embedded: JSON values become an inductive
type, Python dict/indexing operations become explicit functions that may
fail (Python exceptions become `Except`), the standard-library functions
`json.loads` / `json.dumps` are parameters of the embedded functions, and
the outcome of the remote `bedrock_client.invoke_model` call is an input
describing what the external service did.
-/

/-- JSON values, as produced by `json.loads`. Objects keep their key order,
mirroring Python dicts. -/
inductive Json where
  | null : Json
  | bool (b : Bool) : Json
  | num (n : Int) : Json
  | str (s : String) : Json
  | arr (xs : List Json) : Json
  | obj (kvs : List (String × Json)) : Json

/-- Python exceptions distinguished by the handler's `except` clauses:
`json.JSONDecodeError` versus every other `Exception`. -/
inductive PyExn where
  | jsonDecode : PyExn
  | other : PyExn
deriving DecidableEq

/-- First value bound to key `k` in an association list (Python dict lookup;
keys are unique in dicts produced by `json.loads`). -/
def hlookup (l : List (String × Json)) (k : String) : Option Json :=
  (l.find? (fun p => p.1 = k)).map (fun p => p.2)

/-- Python `x == k` where `k` is a string: true exactly for the equal
string (strings never compare equal to values of other types). -/
def Json.isStrEq (k : String) : Json → Bool
  | .str s => s = k
  | _ => false

/-- Python `k in j` for a string `k`: key test on dicts, membership on
lists, substring test on strings, `TypeError` otherwise. -/
def Json.pyContains (j : Json) (k : String) : Except PyExn Bool :=
  match j with
  | .obj kvs => .ok (hlookup kvs k).isSome
  | .arr xs => .ok (xs.any (Json.isStrEq k))
  | .str s => .ok (k = "" ∨ 2 ≤ (s.splitOn k).length : Bool)
  | _ => .error .other

/-- Python `j[k]` for a string key: dict lookup raising `KeyError` when the
key is missing, `TypeError` on every non-dict value. -/
def Json.pyIndexStr (j : Json) (k : String) : Except PyExn Json :=
  match j with
  | .obj kvs =>
    match hlookup kvs k with
    | some v => .ok v
    | none => .error .other
  | _ => .error .other

/-- Python `j[0]`: first element of a list (`IndexError` when empty), first
character of a string, `KeyError`/`TypeError` on other values. -/
def Json.pyIndexZero (j : Json) : Except PyExn Json :=
  match j with
  | .arr xs =>
    match xs with
    | x :: _ => .ok x
    | [] => .error .other
  | .str s =>
    match s.data with
    | c :: _ => .ok (Json.str (String.mk [c]))
    | [] => .error .other
  | _ => .error .other

/-- Python `len(j)`: length of lists and strings, key count of dicts,
`TypeError` otherwise. -/
def Json.pyLen (j : Json) : Except PyExn Nat :=
  match j with
  | .arr xs => .ok xs.length
  | .str s => .ok s.length
  | .obj kvs => .ok kvs.length
  | _ => .error .other

/-- Python `j.get(k, d)`: dict lookup with default, `AttributeError` on
non-dict values. -/
def Json.pyGetD (j : Json) (k : String) (d : Json) : Except PyExn Json :=
  match j with
  | .obj kvs => .ok ((hlookup kvs k).getD d)
  | _ => .error .other

/-- The Lambda event as far as the module reads it: `event.get('httpMethod')`
and `event['body']`. `body = none` covers both an absent key and a `None`
value (both take the "Request body is required" branch); a present string
body is `some`. -/
structure Event where
  httpMethod : Option String
  body : Option String
deriving DecidableEq

/-- Default model identifier (`BEDROCK_MODEL_ID` when the environment
variable is unset). -/
def defaultModelId : String := "anthropic.claude-3-5-haiku-20241022-v1:0"

/-- MAX_TOKENS constant. -/
def MAX_TOKENS : Nat := 4000

/-- The HTTP response envelope returned to API Gateway: `statusCode`,
`headers`, and a serialized JSON `body`. -/
structure Envelope where
  statusCode : Int
  headers : List (String × String)
  body : String
deriving DecidableEq

/-- The default headers dict built inside `create_response`. -/
def default_headers : List (String × String) :=
  [("Content-Type", "application/json"),
   ("Access-Control-Allow-Origin", "*"),
   ("Access-Control-Allow-Methods", "POST, OPTIONS"),
   ("Access-Control-Allow-Headers", "Content-Type, Authorization")]

/-- One step of Python `dict.update`: an existing key keeps its position and
gets the new value, a new key is appended. -/
def updateOne (d : List (String × String)) (kv : String × String) :
    List (String × String) :=
  if d.any (fun p => p.1 = kv.1) then
    d.map (fun p => if p.1 = kv.1 then (p.1, kv.2) else p)
  else
    d ++ [kv]

/-- Python `d.update(u)` on string-valued dicts. -/
def dictUpdate (d u : List (String × String)) : List (String × String) :=
  u.foldl updateOne d

/-- String-valued dict lookup (first binding of the key). -/
def slookup (l : List (String × String)) (k : String) : Option String :=
  (l.find? (fun p => p.1 = k)).map (fun p => p.2)

/-- Embedding of `create_response`: build the default headers, merge in the
caller's headers when given, serialize the body with `json.dumps` (passed
as the parameter `dumps`), and pass the status code through. -/
def create_response (dumps : Json → String) (status_code : Int) (body : Json)
    (headers : Option (List (String × String))) : Envelope :=
  let hs :=
    match headers with
    | some h => if h = [] then default_headers else dictUpdate default_headers h
    | none => default_headers
  { statusCode := status_code, headers := hs, body := dumps body }

/-- ASCII whitespace as stripped by Python `str.strip()` (the embedding
covers the ASCII whitespace characters). -/
def isPySpace (c : Char) : Bool :=
  c = ' ' ∨ c = '\t' ∨ c = '\n' ∨ c = '\r' ∨ c = '\x0b' ∨ c = '\x0c'

/-- Python `s.strip()`: remove leading and trailing whitespace. -/
def pyStrip (s : String) : String :=
  String.mk (((s.data.dropWhile isPySpace).reverse.dropWhile isPySpace).reverse)

/-- Embedding of `validate_request`. `loads` is `json.loads`, returning
`none` where Python raises `json.JSONDecodeError`. The surrounding
`try/except Exception` is embedded by mapping every dynamic-type error
(`TypeError` from `in` or `[...]` on unsuitable values) to
"Invalid request format". -/
def validate_request (loads : String → Option Json) (event : Event) :
    Option String :=
  match event.body with
  | none => some "Request body is required"
  | some b =>
    if b = "" then some "Request body is required"
    else
      match loads b with
      | none => some "Invalid JSON in request body"
      | some body =>
        match body.pyContains "prompt" with
        | .error _ => some "Invalid request format"
        | .ok false => some "Missing 'prompt' field in request body"
        | .ok true =>
          match body.pyIndexStr "prompt" with
          | .error _ => some "Invalid request format"
          | .ok p =>
            match p with
            | .str s =>
              if pyStrip s = "" then some "Prompt cannot be empty"
              else if s.length > 4000 then
                some "Prompt exceeds maximum length of 4000 characters"
              else none
            | _ => some "Prompt must be a string"

/-- Tagged result of `invoke_bedrock_model`, mirroring the two dict shapes
the Python function returns: `{'success': True, 'response', 'model_id',
'usage'}` and `{'success': False, 'error'}`. -/
inductive InvokeResult where
  | success (response : Json) (model_id : String) (usage : Json) : InvokeResult
  | failure (error : String) : InvokeResult

/-- What the external `bedrock_client.invoke_model` call did: returned a
body stream whose contents are a string, raised a `ClientError` carrying
`e.response['Error']['Code']` and `['Message']`, raised a `BotoCoreError`,
or raised some other exception. -/
inductive BedrockCall where
  | raw (body : String) : BedrockCall
  | clientError (code message : String) : BedrockCall
  | botoCoreError (message : String) : BedrockCall
  | otherExn : BedrockCall

/-- The request payload `invoke_bedrock_model` builds for the model. -/
def request_body (prompt : String) : Json :=
  Json.obj
    [("anthropic_version", Json.str "bedrock-2023-05-31"),
     ("max_tokens", Json.num (MAX_TOKENS : Int)),
     ("messages",
      Json.arr [Json.obj [("role", Json.str "user"),
                          ("content", Json.str prompt)]])]

/-- The content-extraction block of `invoke_bedrock_model`, run on the
parsed response body inside the `try`: evaluate
`'content' in response_body and len(response_body['content']) > 0`,
then either build the success dict from
`response_body['content'][0]['text']` and
`response_body.get('usage', {})`, or build the unexpected-format
failure. A raised exception propagates to the `except` clauses. -/
def extract_outcome (modelId : String) (rb : Json) :
    Except PyExn InvokeResult := do
  let hasContent ← rb.pyContains "content"
  if hasContent then
    let c ← rb.pyIndexStr "content"
    let n ← c.pyLen
    if n > 0 then
      let item ← c.pyIndexZero
      let text ← item.pyIndexStr "text"
      let usage ← rb.pyGetD "usage" (Json.obj [])
      return InvokeResult.success text modelId usage
    else
      return InvokeResult.failure "Unexpected response format from AI model"
  else
    return InvokeResult.failure "Unexpected response format from AI model"

/-- Embedding of `invoke_bedrock_model`. `loads` is `json.loads` (applied
to the response stream's contents), `modelId` is `BEDROCK_MODEL_ID`, and
`call` is what the remote invocation did. Every exception raised in the
`try` block is caught: `ClientError` by the code table, `BotoCoreError`
by the network message, everything else (including a `JSONDecodeError`
from an unparseable response body and any dynamic-type error during
extraction) by the generic internal message. -/
def invoke_bedrock_model (loads : String → Option Json) (modelId : String)
    (call : BedrockCall) (prompt : String) : InvokeResult :=
  match call with
  | .raw s =>
    match loads s with
    | none => .failure "Internal server error processing AI request"
    | some rb =>
      match extract_outcome modelId rb with
      | .ok r => r
      | .error _ => .failure "Internal server error processing AI request"
  | .clientError code message =>
    if code = "AccessDeniedException" then
      .failure "Access denied to Bedrock model. Please check IAM permissions."
    else if code = "ValidationException" then
      .failure "Invalid request to Bedrock model."
    else if code = "ThrottlingException" then
      .failure "Request throttled. Please try again later."
    else
      .failure ("Bedrock service error: " ++ message)
  | .botoCoreError _ =>
    .failure "Network or configuration error accessing Bedrock service"
  | .otherExn =>
    .failure "Internal server error processing AI request"

/-- The body of `lambda_handler`'s `try` block. A thrown `PyExn` is what
the block raises: `jsonDecode` where `json.loads(event['body'])` fails,
`other` for the dynamic errors (`KeyError` on a missing body,
`TypeError`/`KeyError` on `body['prompt']`, `AttributeError` on
`.strip()` of a non-string). -/
def lambda_handler_try (loads : String → Option Json) (dumps : Json → String)
    (modelId : String) (call : BedrockCall) (event : Event) :
    Except PyExn Envelope :=
  if event.httpMethod = some "OPTIONS" then
    .ok (create_response dumps 200
      (Json.obj [("message", Json.str "CORS preflight successful")]) none)
  else
    match validate_request loads event with
    | some validation_error =>
      .ok (create_response dumps 400
        (Json.obj [("error", Json.str "Bad Request"),
                   ("message", Json.str validation_error)]) none)
    | none =>
      match event.body with
      | none => .error .other
      | some b =>
        match loads b with
        | none => .error .jsonDecode
        | some body =>
          match body.pyIndexStr "prompt" with
          | .error e => .error e
          | .ok pj =>
            match pj with
            | .str p =>
              match invoke_bedrock_model loads modelId call (pyStrip p) with
              | .success text mid usage =>
                .ok (create_response dumps 200
                  (Json.obj [("message", Json.str "Success"),
                             ("response", text),
                             ("model_id", Json.str mid),
                             ("usage", usage)]) none)
              | .failure err =>
                .ok (create_response dumps 500
                  (Json.obj [("error", Json.str "Internal Server Error"),
                             ("message", Json.str err)]) none)
            | _ => .error .other

/-- The `except` clauses of `lambda_handler`: `json.JSONDecodeError` maps
to the defensive 400, every other exception to the generic 500. -/
def handle_outcome (dumps : Json → String) (r : Except PyExn Envelope) :
    Envelope :=
  match r with
  | .ok env => env
  | .error .jsonDecode =>
    create_response dumps 400
      (Json.obj [("error", Json.str "Bad Request"),
                 ("message", Json.str "Invalid JSON in request body")]) none
  | .error .other =>
    create_response dumps 500
      (Json.obj [("error", Json.str "Internal Server Error"),
                 ("message", Json.str "An unexpected error occurred")]) none

/-- Embedding of `lambda_handler`: the `try` body wrapped in the `except`
clauses. -/
def lambda_handler (loads : String → Option Json) (dumps : Json → String)
    (modelId : String) (call : BedrockCall) (event : Event) : Envelope :=
  handle_outcome dumps (lambda_handler_try loads dumps modelId call event)

/-- Sample `json.loads` used by the concrete witnesses: a finite table from
body strings to parsed values; everything else is unparseable. -/
def sampleLoads : String → Option Json := fun s =>
  if s = "good" then some (Json.obj [("prompt", Json.str "hello")])
  else if s = "blank" then some (Json.obj [("prompt", Json.str "   ")])
  else if s = "nokey" then some (Json.obj [("note", Json.str "hi")])
  else if s = "notstr" then some (Json.obj [("prompt", Json.num 5)])
  else if s = "resp" then
    some (Json.obj
      [("content",
        Json.arr [Json.obj [("text",
          Json.str "Hello! How can I help you today?")]]),
       ("usage", Json.obj [("input_tokens", Json.num 10),
                           ("output_tokens", Json.num 25)])])
  else if s = "respempty" then some (Json.obj [("content", Json.arr [])])
  else none

/-- Sample `json.dumps` used by the concrete witnesses (any serializer
works for them; the theorems are parametric in `dumps`). -/
def sampleDumps : Json → String := fun _ => "serialized"


theorem slookup_eq_none (d : List (String × String)) (c : String)
    (h : d.any (fun p => p.1 = c) = false) : slookup d c = none := by
  induction d with
  | nil => rfl
  | cons p d ih =>
    simp only [List.any_cons, Bool.or_eq_false_iff] at h
    simp only [slookup, List.find?]
    have hp : (decide (p.1 = c)) = false := h.1
    rw [hp]
    exact ih h.2

theorem slookup_map_set (d : List (String × String)) (c v k : String) :
    slookup (d.map (fun p => if p.1 = c then (p.1, v) else p)) k =
      if k = c then (if d.any (fun p => p.1 = c) then some v else none)
      else slookup d k := by
  induction d with
  | nil => by_cases hk : k = c <;> simp [slookup, hk]
  | cons p d ih =>
    by_cases hp : p.1 = c
    · by_cases hk : k = c
      · subst hk
        simp [slookup, List.find?, hp]
      · have hpk : ¬ p.1 = k := fun h => hk (h ▸ hp)
        have ih' := ih
        simp only [slookup] at ih' ⊢
        rw [if_neg hk] at ih' ⊢
        simp only [List.map_cons, if_pos hp, List.find?, decide_eq_false hpk]
        exact ih'
    · by_cases hk2 : p.1 = k
      · have hk : ¬ k = c := fun h => hp (hk2.trans h)
        simp [slookup, List.find?, hp, hk2, hk]
      · simp only [slookup, List.find?, List.map_cons, if_neg hp,
          List.any_cons, decide_eq_false hp, Bool.false_or,
          decide_eq_false hk2] at ih ⊢
        exact ih

theorem slookup_append_one (d : List (String × String)) (kv : String × String)
    (k : String) :
    slookup (d ++ [kv]) k =
      match slookup d k with
      | some v => some v
      | none => if kv.1 = k then some kv.2 else none := by
  induction d with
  | nil => by_cases h : kv.1 = k <;> simp [slookup, List.find?, h]
  | cons p d ih =>
    by_cases hk2 : p.1 = k
    · simp [slookup, List.find?, hk2]
    · simp only [List.cons_append, slookup, List.find?] at ih ⊢
      rw [decide_eq_false hk2]
      exact ih

theorem slookup_updateOne (d : List (String × String)) (kv : String × String)
    (k : String) :
    slookup (updateOne d kv) k =
      if k = kv.1 then some kv.2 else slookup d k := by
  unfold updateOne
  by_cases hc : d.any (fun p => p.1 = kv.1)
  · rw [if_pos hc]
    rw [slookup_map_set d kv.1 kv.2 k]
    by_cases hk : k = kv.1 <;> simp [hk, hc]
  · rw [if_neg hc]
    rw [slookup_append_one]
    by_cases hk : k = kv.1
    · subst hk
      have hcf : d.any (fun p => p.1 = kv.1) = false := Bool.eq_false_iff.mpr hc
      rw [slookup_eq_none d kv.1 hcf]
    · have hk' : ¬ kv.1 = k := fun h => hk h.symm
      cases hd : slookup d k <;> simp [hk, hk', hd]

theorem slookup_dictUpdate (d u : List (String × String)) (k : String)
    (hnd : (u.map Prod.fst).Nodup) :
    slookup (dictUpdate d u) k =
      match slookup u k with
      | some v => some v
      | none => slookup d k := by
  induction u generalizing d with
  | nil => simp [dictUpdate, slookup, List.find?]
  | cons kv u ih =>
    have hnd2 : (kv.1 :: u.map Prod.fst).Nodup := by simpa using hnd
    have h1 : kv.1 ∉ u.map Prod.fst := (List.nodup_cons.mp hnd2).1
    have h2 : (u.map Prod.fst).Nodup := (List.nodup_cons.mp hnd2).2
    have hstep : dictUpdate d (kv :: u) = dictUpdate (updateOne d kv) u := rfl
    rw [hstep, ih (updateOne d kv) h2]
    by_cases hk : k = kv.1
    · subst hk
      have hany : u.any (fun p => p.1 = kv.1) = false := by
        rw [List.any_eq_false]
        intro p hp
        simp only [decide_eq_true_eq]
        exact fun he => h1 (he ▸ List.mem_map_of_mem Prod.fst hp)
      rw [slookup_eq_none u kv.1 hany, slookup_updateOne]
      have hcons : slookup (kv :: u) kv.1 = some kv.2 := by
        simp [slookup, List.find?]
      rw [hcons]
      simp
    · have hk' : ¬ kv.1 = k := fun h => hk h.symm
      rw [slookup_updateOne, if_neg hk]
      have hcons : slookup (kv :: u) k = slookup u k := by
        simp [slookup, List.find?, decide_eq_false hk']
      rw [hcons]

/-- C9: the envelope built by `create_response` carries the four default
headers; caller-supplied headers are merged in, overriding a default on
key collision and extending the set otherwise; the status code is passed
through verbatim. -/
theorem claim9_create_response_headers (dumps : Json → String) (sc : Int)
    (body : Json) (hs : List (String × String))
    (hnd : (hs.map Prod.fst).Nodup) :
    (create_response dumps sc body none).headers = default_headers ∧
    (create_response dumps sc body none).statusCode = sc ∧
    (create_response dumps sc body (some hs)).statusCode = sc ∧
    (∀ k v, slookup hs k = some v →
      slookup (create_response dumps sc body (some hs)).headers k = some v) ∧
    (∀ k, slookup hs k = none →
      slookup (create_response dumps sc body (some hs)).headers k =
        slookup default_headers k) := by
  refine ⟨rfl, rfl, rfl, ?_, ?_⟩
  · intro k v hv
    by_cases h0 : hs = []
    · subst h0; cases hv
    · show slookup (if hs = [] then default_headers
        else dictUpdate default_headers hs) k = some v
      rw [if_neg h0, slookup_dictUpdate default_headers hs k hnd, hv]
  · intro k hv
    by_cases h0 : hs = []
    · subst h0
      rfl
    · show slookup (if hs = [] then default_headers
        else dictUpdate default_headers hs) k = slookup default_headers k
      rw [if_neg h0, slookup_dictUpdate default_headers hs k hnd, hv]

/-- Concrete instantiation of the C9 theorem: caller headers override
Content-Type, extend with X-Request-Id, and leave the CORS origin
default in place. -/
theorem claim9_witness :
    (create_response sampleDumps 201 Json.null none).headers =
      default_headers ∧
    (create_response sampleDumps 201 Json.null
      (some [("Content-Type", "text/html"),
             ("X-Request-Id", "abc")])).statusCode = 201 ∧
    slookup (create_response sampleDumps 201 Json.null
      (some [("Content-Type", "text/html"),
             ("X-Request-Id", "abc")])).headers "Content-Type" =
        some "text/html" ∧
    slookup (create_response sampleDumps 201 Json.null
      (some [("Content-Type", "text/html"),
             ("X-Request-Id", "abc")])).headers "X-Request-Id" = some "abc" ∧
    slookup (create_response sampleDumps 201 Json.null
      (some [("Content-Type", "text/html"),
             ("X-Request-Id", "abc")])).headers
        "Access-Control-Allow-Origin" = some "*" := by
  have h := claim9_create_response_headers sampleDumps 201 Json.null
    [("Content-Type", "text/html"), ("X-Request-Id", "abc")] (by decide)
  refine ⟨h.1, h.2.2.1, h.2.2.2.1 _ _ (by decide), h.2.2.2.1 _ _ (by decide),
    ?_⟩
  rw [h.2.2.2.2 _ (by decide)]
  decide

/-- Evaluation of `validate_request` on a non-empty body that parses to a
JSON object: the result depends only on the object's `prompt` entry. -/
theorem validate_request_obj (loads : String → Option Json) (m : Option String)
    (b : String) (kvs : List (String × Json)) (hne : ¬ b = "")
    (hb : loads b = some (Json.obj kvs)) :
    validate_request loads ⟨m, some b⟩ =
      match hlookup kvs "prompt" with
      | none => some "Missing 'prompt' field in request body"
      | some (Json.str s) =>
        if pyStrip s = "" then some "Prompt cannot be empty"
        else if s.length > 4000 then
          some "Prompt exceeds maximum length of 4000 characters"
        else none
      | some _ => some "Prompt must be a string" := by
  simp only [validate_request, if_neg hne, hb]
  cases hp : hlookup kvs "prompt" with
  | none => simp [Json.pyContains, hp]
  | some v =>
    simp only [Json.pyContains, Json.pyIndexStr, hp, Option.isSome_some]
    cases v <;> simp

/-- C2: `validate_request` applies its six checks in the listed order,
short-circuiting on the first failing check with that check's exact error
string, and returns `none` when all checks pass; a whitespace-only prompt
is rejected as empty regardless of its length because the emptiness check
precedes the length check. -/
theorem claim2_validate_order (loads : String → Option Json)
    (m : Option String) :
    (validate_request loads ⟨m, none⟩ = some "Request body is required") ∧
    (validate_request loads ⟨m, some ""⟩ = some "Request body is required") ∧
    (∀ b, ¬ b = "" → loads b = none →
      validate_request loads ⟨m, some b⟩ =
        some "Invalid JSON in request body") ∧
    (∀ b kvs, ¬ b = "" → loads b = some (Json.obj kvs) →
      hlookup kvs "prompt" = none →
      validate_request loads ⟨m, some b⟩ =
        some "Missing 'prompt' field in request body") ∧
    (∀ b kvs v, ¬ b = "" → loads b = some (Json.obj kvs) →
      hlookup kvs "prompt" = some v → (∀ s, ¬ v = Json.str s) →
      validate_request loads ⟨m, some b⟩ = some "Prompt must be a string") ∧
    (∀ b kvs s, ¬ b = "" → loads b = some (Json.obj kvs) →
      hlookup kvs "prompt" = some (Json.str s) → pyStrip s = "" →
      validate_request loads ⟨m, some b⟩ = some "Prompt cannot be empty") ∧
    (∀ b kvs s, ¬ b = "" → loads b = some (Json.obj kvs) →
      hlookup kvs "prompt" = some (Json.str s) → ¬ pyStrip s = "" →
      ((validate_request loads ⟨m, some b⟩ =
          some "Prompt exceeds maximum length of 4000 characters" ↔
        4000 < s.length) ∧
       (s.length ≤ 4000 → validate_request loads ⟨m, some b⟩ = none))) := by
  refine ⟨rfl, rfl, ?_, ?_, ?_, ?_, ?_⟩
  · intro b hne hl
    simp only [validate_request, if_neg hne, hl]
  · intro b kvs hne hb hp
    rw [validate_request_obj loads m b kvs hne hb, hp]
  · intro b kvs v hne hb hp hv
    rw [validate_request_obj loads m b kvs hne hb, hp]
    cases v with
    | str s => exact absurd rfl (hv s)
    | null => rfl
    | bool x => rfl
    | num x => rfl
    | arr xs => rfl
    | obj okvs => rfl
  · intro b kvs s hne hb hp hts
    rw [validate_request_obj loads m b kvs hne hb, hp]
    simp [hts]
  · intro b kvs s hne hb hp hts
    rw [validate_request_obj loads m b kvs hne hb, hp]
    simp only [if_neg hts]
    constructor
    · constructor
      · intro hres
        by_cases hlen : s.length > 4000
        · exact hlen
        · rw [if_neg hlen] at hres
          cases hres
      · intro hlen
        rw [if_pos hlen]
    · intro hlen
      rw [if_neg (by omega : ¬ s.length > 4000)]

/-- Concrete instantiation of the C2 theorem: each check fires on a body
exhibiting exactly its failure, and a valid body passes. -/
theorem claim2_witness :
    (validate_request sampleLoads ⟨some "POST", none⟩ =
      some "Request body is required") ∧
    (validate_request sampleLoads ⟨some "POST", some ""⟩ =
      some "Request body is required") ∧
    (validate_request sampleLoads ⟨some "POST", some "oops"⟩ =
      some "Invalid JSON in request body") ∧
    (validate_request sampleLoads ⟨some "POST", some "nokey"⟩ =
      some "Missing 'prompt' field in request body") ∧
    (validate_request sampleLoads ⟨some "POST", some "notstr"⟩ =
      some "Prompt must be a string") ∧
    (validate_request sampleLoads ⟨some "POST", some "blank"⟩ =
      some "Prompt cannot be empty") ∧
    (validate_request sampleLoads ⟨some "POST", some "good"⟩ = none) := by
  have h := claim2_validate_order sampleLoads (some "POST")
  refine ⟨h.1, h.2.1, h.2.2.1 "oops" (by decide) rfl,
    h.2.2.2.1 "nokey" _ (by decide) rfl rfl,
    h.2.2.2.2.1 "notstr" _ (Json.num 5) (by decide) rfl rfl
      (fun s hs => Json.noConfusion hs),
    h.2.2.2.2.2.1 "blank" _ "   " (by decide) rfl rfl (by decide),
    (h.2.2.2.2.2.2 "good" _ "hello" (by decide) rfl rfl (by decide)).2
      (by decide)⟩

/-- C6: a present, non-empty body that does not parse as JSON is rejected
with the exact invalid-JSON message. -/
theorem claim6_invalid_json (loads : String → Option Json) (m : Option String)
    (b : String) (hne : ¬ b = "") (hl : loads b = none) :
    validate_request loads ⟨m, some b⟩ =
      some "Invalid JSON in request body" := by
  simp only [validate_request, if_neg hne, hl]

/-- Concrete instantiation of the C6 theorem. -/
theorem claim6_witness :
    validate_request sampleLoads ⟨some "POST", some "not json at all"⟩ =
      some "Invalid JSON in request body" :=
  claim6_invalid_json sampleLoads (some "POST") "not json at all"
    (by decide) rfl

/-- C7: for a string prompt that passed the earlier checks (non-empty
after trimming), validation rejects with the length-exceeded message
exactly when the untrimmed length is strictly greater than 4000, and a
length of at most 4000 (in particular exactly 4000) passes. -/
theorem claim7_length_boundary (loads : String → Option Json)
    (m : Option String) (b : String) (kvs : List (String × Json)) (s : String)
    (hne : ¬ b = "") (hb : loads b = some (Json.obj kvs))
    (hp : hlookup kvs "prompt" = some (Json.str s)) (hts : ¬ pyStrip s = "") :
    (validate_request loads ⟨m, some b⟩ =
        some "Prompt exceeds maximum length of 4000 characters" ↔
      4000 < s.length) ∧
    (s.length ≤ 4000 → validate_request loads ⟨m, some b⟩ = none) := by
  rw [validate_request_obj loads m b kvs hne hb, hp]
  simp only [if_neg hts]
  constructor
  · constructor
    · intro hres
      by_cases hlen : s.length > 4000
      · exact hlen
      · rw [if_neg hlen] at hres
        cases hres
    · intro hlen
      rw [if_pos hlen]
  · intro hlen
    rw [if_neg (by omega : ¬ s.length > 4000)]

/-- Concrete instantiation of the C7 theorem. -/
theorem claim7_witness :
    (validate_request sampleLoads ⟨some "POST", some "good"⟩ =
        some "Prompt exceeds maximum length of 4000 characters" ↔
      4000 < ("hello" : String).length) ∧
    (("hello" : String).length ≤ 4000 →
      validate_request sampleLoads ⟨some "POST", some "good"⟩ = none) :=
  claim7_length_boundary sampleLoads (some "POST") "good" _ "hello"
    (by decide) rfl rfl (by decide)

/-- Inversion of a passing validation: the event carries a non-empty body
that `loads` parses to an object whose `prompt` entry is a string with
non-empty strip and untrimmed length at most 4000. -/
theorem validate_request_none_inv (loads : String → Option Json)
    (event : Event) (hv : validate_request loads event = none) :
    ∃ b kvs s, event.body = some b ∧ ¬ b = "" ∧
      loads b = some (Json.obj kvs) ∧
      hlookup kvs "prompt" = some (Json.str s) ∧
      ¬ pyStrip s = "" ∧ s.length ≤ 4000 := by
  obtain ⟨m, bo⟩ := event
  cases bo with
  | none => cases hv
  | some b =>
    by_cases hne : b = ""
    · subst hne
      cases hv
    · simp only [validate_request, if_neg hne] at hv
      cases hb : loads b with
      | none => rw [hb] at hv; cases hv
      | some body =>
        rw [hb] at hv
        cases body with
        | null => cases hv
        | bool x => cases hv
        | num x => cases hv
        | str x =>
          simp only [Json.pyContains] at hv
          cases hdec : (decide (2 ≤ (x.splitOn "prompt").length))
            <;> simp [hdec, Json.pyIndexStr] at hv
        | arr xs =>
          simp only [Json.pyContains] at hv
          cases hany : xs.any (Json.isStrEq "prompt")
            <;> simp [hany, Json.pyIndexStr] at hv
        | obj kvs =>
          cases hp : hlookup kvs "prompt" with
          | none => simp [Json.pyContains, hp] at hv
          | some v =>
            simp only [Json.pyContains, Json.pyIndexStr, hp,
              Option.isSome_some] at hv
            cases v with
            | str s =>
              by_cases hts : pyStrip s = ""
              · simp [hts] at hv
              · by_cases hlen : s.length > 4000
                · simp [hts, hlen] at hv
                · exact ⟨b, kvs, s, rfl, hne, hb, hp, hts, by omega⟩
            | null => cases hv
            | bool x => cases hv
            | num x => cases hv
            | arr xs => cases hv
            | obj okvs => cases hv

/-- Evaluation of the handler's `try` body on a non-OPTIONS event that
passes validation: no exception is thrown, the model is invoked with the
stripped prompt, and the outcome is translated to the 200 or 500
envelope. -/
theorem lambda_handler_try_valid (loads : String → Option Json)
    (dumps : Json → String) (modelId : String) (call : BedrockCall)
    (m : Option String) (hm : ¬ m = some "OPTIONS") (b : String)
    (hne : ¬ b = "") (kvs : List (String × Json))
    (hb : loads b = some (Json.obj kvs)) (s : String)
    (hp : hlookup kvs "prompt" = some (Json.str s))
    (hts : ¬ pyStrip s = "") (hlen : s.length ≤ 4000) :
    lambda_handler_try loads dumps modelId call ⟨m, some b⟩ =
      Except.ok
        (match invoke_bedrock_model loads modelId call (pyStrip s) with
         | .success text mid usage =>
           create_response dumps 200
             (Json.obj [("message", Json.str "Success"),
                        ("response", text),
                        ("model_id", Json.str mid),
                        ("usage", usage)]) none
         | .failure err =>
           create_response dumps 500
             (Json.obj [("error", Json.str "Internal Server Error"),
                        ("message", Json.str err)]) none) := by
  have hv : validate_request loads ⟨m, some b⟩ = none := by
    rw [validate_request_obj loads m b kvs hne hb, hp]
    simp only [if_neg hts]
    rw [if_neg (by omega : ¬ s.length > 4000)]
  simp only [lambda_handler_try, if_neg hm, hv, hb, Json.pyIndexStr, hp]
  cases invoke_bedrock_model loads modelId call (pyStrip s) <;> rfl

/-- The handler's `try` body only ever succeeds with an envelope built by
`create_response` from a JSON object and the default headers. -/
theorem lambda_handler_try_ok_shape (loads : String → Option Json)
    (dumps : Json → String) (modelId : String) (call : BedrockCall)
    (event : Event) (env : Envelope)
    (h : lambda_handler_try loads dumps modelId call event = Except.ok env) :
    ∃ sc kvs, env = create_response dumps sc (Json.obj kvs) none := by
  unfold lambda_handler_try at h
  repeat' split at h
  all_goals
    first
    | exact Except.noConfusion h
    | exact ⟨_, _, (Except.ok.inj h).symm⟩

/-- Every run of the handler produces an envelope built by
`create_response` from a JSON object with default headers. -/
theorem lambda_handler_shape (loads : String → Option Json)
    (dumps : Json → String) (modelId : String) (call : BedrockCall)
    (event : Event) :
    ∃ sc kvs, lambda_handler loads dumps modelId call event =
      create_response dumps sc (Json.obj kvs) none := by
  unfold lambda_handler
  cases htry : lambda_handler_try loads dumps modelId call event with
  | ok env =>
    obtain ⟨sc, kvs, henv⟩ :=
      lambda_handler_try_ok_shape loads dumps modelId call event env htry
    exact ⟨sc, kvs, henv ▸ rfl⟩
  | error e =>
    cases e with
    | jsonDecode => exact ⟨400, _, rfl⟩
    | other => exact ⟨500, _, rfl⟩

/-- C1: for every incoming event `lambda_handler` returns exactly one
response envelope — a structure with a status code, headers and a
serialized JSON-object body — and never propagates an exception; the
catch-all `except` clause maps any exception not handled by an inner
component to the 500 envelope with the fixed error/message body. -/
theorem claim1_single_envelope (loads : String → Option Json)
    (dumps : Json → String) (modelId : String) (call : BedrockCall)
    (event : Event) :
    (∃ kvs, (lambda_handler loads dumps modelId call event).body =
      dumps (Json.obj kvs)) ∧
    (lambda_handler loads dumps modelId call event).headers =
      default_headers ∧
    handle_outcome dumps (Except.error PyExn.other) =
      create_response dumps 500
        (Json.obj [("error", Json.str "Internal Server Error"),
                   ("message", Json.str "An unexpected error occurred")])
        none := by
  obtain ⟨sc, kvs, h⟩ := lambda_handler_shape loads dumps modelId call event
  exact ⟨⟨kvs, by rw [h]; rfl⟩, by rw [h]; rfl, rfl⟩

/-- C8: an OPTIONS event is answered 200 with the fixed CORS body; the
result does not depend on the validator (`loads`), the body, or the model
call, so neither runs to produce the answer. -/
theorem claim8_options_preflight (loads : String → Option Json)
    (dumps : Json → String) (modelId : String) (call : BedrockCall)
    (event : Event) (hm : event.httpMethod = some "OPTIONS") :
    lambda_handler loads dumps modelId call event =
      create_response dumps 200
        (Json.obj [("message", Json.str "CORS preflight successful")])
        none := by
  simp [lambda_handler, lambda_handler_try, handle_outcome, hm]

/-- Concrete instantiation of the C8 theorem: OPTIONS with an invalid body
still gets the fixed CORS answer. -/
theorem claim8_witness :
    lambda_handler sampleLoads sampleDumps defaultModelId BedrockCall.otherExn
      ⟨some "OPTIONS", some "not json at all"⟩ =
      create_response sampleDumps 200
        (Json.obj [("message", Json.str "CORS preflight successful")])
        none :=
  claim8_options_preflight sampleLoads sampleDumps defaultModelId
    BedrockCall.otherExn ⟨some "OPTIONS", some "not json at all"⟩ rfl

/-- C10: when validation passes, the event's body parses to an object
whose `prompt` is a string with non-empty strip and length at most 4000,
and (for a non-OPTIONS event) the handler's try body raises nothing — it
invokes the model with the stripped prompt and wraps the outcome. -/
theorem claim10_valid_success_path (loads : String → Option Json)
    (dumps : Json → String) (modelId : String) (event : Event)
    (hv : validate_request loads event = none)
    (hm : ¬ event.httpMethod = some "OPTIONS") :
    ∃ b kvs s, event.body = some b ∧ ¬ b = "" ∧
      loads b = some (Json.obj kvs) ∧
      hlookup kvs "prompt" = some (Json.str s) ∧
      ¬ pyStrip s = "" ∧ s.length ≤ 4000 ∧
      ∀ call, lambda_handler_try loads dumps modelId call event =
        Except.ok
          (match invoke_bedrock_model loads modelId call (pyStrip s) with
           | .success text mid usage =>
             create_response dumps 200
               (Json.obj [("message", Json.str "Success"),
                          ("response", text),
                          ("model_id", Json.str mid),
                          ("usage", usage)]) none
           | .failure err =>
             create_response dumps 500
               (Json.obj [("error", Json.str "Internal Server Error"),
                          ("message", Json.str err)]) none) := by
  obtain ⟨m, bo⟩ := event
  obtain ⟨b, kvs, s, hbo, hne, hb, hp, hts, hlen⟩ :=
    validate_request_none_inv loads ⟨m, bo⟩ hv
  have hbo' : bo = some b := hbo
  subst hbo'
  refine ⟨b, kvs, s, rfl, hne, hb, hp, hts, hlen, fun call => ?_⟩
  exact lambda_handler_try_valid loads dumps modelId call m hm b hne kvs hb
    s hp hts hlen

/-- Concrete instantiation of the C10 theorem. -/
theorem claim10_witness :
    ∃ b kvs s, (⟨some "POST", some "good"⟩ : Event).body = some b ∧
      ¬ b = "" ∧
      sampleLoads b = some (Json.obj kvs) ∧
      hlookup kvs "prompt" = some (Json.str s) ∧
      ¬ pyStrip s = "" ∧ s.length ≤ 4000 ∧
      ∀ call, lambda_handler_try sampleLoads sampleDumps defaultModelId call
          ⟨some "POST", some "good"⟩ =
        Except.ok
          (match invoke_bedrock_model sampleLoads defaultModelId call
              (pyStrip s) with
           | .success text mid usage =>
             create_response sampleDumps 200
               (Json.obj [("message", Json.str "Success"),
                          ("response", text),
                          ("model_id", Json.str mid),
                          ("usage", usage)]) none
           | .failure err =>
             create_response sampleDumps 500
               (Json.obj [("error", Json.str "Internal Server Error"),
                          ("message", Json.str err)]) none) :=
  claim10_valid_success_path sampleLoads sampleDumps defaultModelId
    ⟨some "POST", some "good"⟩ (by decide) (by decide)

/-- C3: a well-formed remote response with at least one content item
yields `Success` carrying the first item's text and the response's usage
mapping (empty mapping when absent), and the handler surfaces it as the
200 success envelope naming the model identifier used. -/
theorem claim3_success_response (loads : String → Option Json)
    (dumps : Json → String) (modelId : String) (m : Option String)
    (hm : ¬ m = some "OPTIONS") (b : String) (hne : ¬ b = "")
    (ekvs : List (String × Json)) (hb : loads b = some (Json.obj ekvs))
    (s : String) (hp : hlookup ekvs "prompt" = some (Json.str s))
    (hts : ¬ pyStrip s = "") (hlen : s.length ≤ 4000)
    (rs : String) (rkvs : List (String × Json))
    (hr : loads rs = some (Json.obj rkvs)) (item : Json) (rest : List Json)
    (hc : hlookup rkvs "content" = some (Json.arr (item :: rest)))
    (ikvs : List (String × Json)) (hitem : item = Json.obj ikvs) (t : Json)
    (ht : hlookup ikvs "text" = some t) :
    invoke_bedrock_model loads modelId (BedrockCall.raw rs) (pyStrip s) =
      InvokeResult.success t modelId
        ((hlookup rkvs "usage").getD (Json.obj [])) ∧
    lambda_handler loads dumps modelId (BedrockCall.raw rs) ⟨m, some b⟩ =
      create_response dumps 200
        (Json.obj [("message", Json.str "Success"),
                   ("response", t),
                   ("model_id", Json.str modelId),
                   ("usage", (hlookup rkvs "usage").getD (Json.obj []))])
        none := by
  subst hitem
  have hinv : invoke_bedrock_model loads modelId (BedrockCall.raw rs)
      (pyStrip s) =
      InvokeResult.success t modelId
        ((hlookup rkvs "usage").getD (Json.obj [])) := by
    simp only [invoke_bedrock_model, hr, extract_outcome, Json.pyContains,
      Json.pyIndexStr, Json.pyLen, Json.pyIndexZero, Json.pyGetD, hc, ht,
      Option.isSome_some]
    simp [Bind.bind, Except.bind, pure, Except.pure, ht]
  refine ⟨hinv, ?_⟩
  unfold lambda_handler
  rw [lambda_handler_try_valid loads dumps modelId (BedrockCall.raw rs) m hm
    b hne ekvs hb s hp hts hlen, hinv]
  rfl

/-- Concrete instantiation of the C3 theorem: the sample remote response
yields the 200 envelope with the extracted text and usage mapping. -/
theorem claim3_witness :
    invoke_bedrock_model sampleLoads defaultModelId (BedrockCall.raw "resp")
      (pyStrip "hello") =
      InvokeResult.success (Json.str "Hello! How can I help you today?")
        defaultModelId
        (Json.obj [("input_tokens", Json.num 10),
                   ("output_tokens", Json.num 25)]) ∧
    lambda_handler sampleLoads sampleDumps defaultModelId
      (BedrockCall.raw "resp") ⟨some "POST", some "good"⟩ =
      create_response sampleDumps 200
        (Json.obj [("message", Json.str "Success"),
                   ("response",
                    Json.str "Hello! How can I help you today?"),
                   ("model_id", Json.str defaultModelId),
                   ("usage",
                    Json.obj [("input_tokens", Json.num 10),
                              ("output_tokens", Json.num 25)])]) none :=
  claim3_success_response sampleLoads sampleDumps defaultModelId
    (some "POST") (by decide) "good" (by decide) _ rfl "hello" rfl
    (by decide) (by decide) "resp" _ rfl _ _ rfl _ rfl
    (Json.str "Hello! How can I help you today?") rfl

/-- C4: a structured remote-service error is mapped by its machine-readable
code — access-denied, validation and throttling codes get their fixed
messages, every other code gets the service's own message preceded by the fixed text
"Bedrock service error: " — and the invoker returns a `Failure`
value rather than propagating the exception. -/
theorem claim4_client_error_mapping (loads : String → Option Json)
    (modelId : String) (prompt : String) (msg : String) (code : String) :
    (invoke_bedrock_model loads modelId
        (BedrockCall.clientError "AccessDeniedException" msg) prompt =
      InvokeResult.failure
        "Access denied to Bedrock model. Please check IAM permissions.") ∧
    (invoke_bedrock_model loads modelId
        (BedrockCall.clientError "ValidationException" msg) prompt =
      InvokeResult.failure "Invalid request to Bedrock model.") ∧
    (invoke_bedrock_model loads modelId
        (BedrockCall.clientError "ThrottlingException" msg) prompt =
      InvokeResult.failure "Request throttled. Please try again later.") ∧
    (¬ code = "AccessDeniedException" → ¬ code = "ValidationException" →
      ¬ code = "ThrottlingException" →
      invoke_bedrock_model loads modelId
          (BedrockCall.clientError code msg) prompt =
        InvokeResult.failure ("Bedrock service error: " ++ msg)) := by
  refine ⟨rfl, rfl, rfl, fun h1 h2 h3 => ?_⟩
  simp [invoke_bedrock_model, h1, h2, h3]

/-- Concrete instantiation of the C4 theorem, including an unknown code. -/
theorem claim4_witness :
    (invoke_bedrock_model sampleLoads defaultModelId
        (BedrockCall.clientError "AccessDeniedException" "denied") "hi" =
      InvokeResult.failure
        "Access denied to Bedrock model. Please check IAM permissions.") ∧
    (invoke_bedrock_model sampleLoads defaultModelId
        (BedrockCall.clientError "ValidationException" "denied") "hi" =
      InvokeResult.failure "Invalid request to Bedrock model.") ∧
    (invoke_bedrock_model sampleLoads defaultModelId
        (BedrockCall.clientError "ThrottlingException" "denied") "hi" =
      InvokeResult.failure "Request throttled. Please try again later.") ∧
    (invoke_bedrock_model sampleLoads defaultModelId
        (BedrockCall.clientError "ServiceQuotaExceededException"
          "quota reached") "hi" =
      InvokeResult.failure ("Bedrock service error: " ++ "quota reached")) := by
  have h := claim4_client_error_mapping sampleLoads defaultModelId "hi"
    "denied"
  have h2 := claim4_client_error_mapping sampleLoads defaultModelId "hi"
    "quota reached" "ServiceQuotaExceededException"
  exact ⟨(h "x").1, (h "x").2.1, (h "x").2.2.1,
    h2.2.2.2 (by decide) (by decide) (by decide)⟩

/-- C5: a well-formed remote response with an empty content list, or with
no content key at all, makes the invoker return the unexpected-format
`Failure`, and the handler surfaces it as the 500 envelope with that
message. -/
theorem claim5_unexpected_format (loads : String → Option Json)
    (dumps : Json → String) (modelId : String) (m : Option String)
    (hm : ¬ m = some "OPTIONS") (b : String) (hne : ¬ b = "")
    (ekvs : List (String × Json)) (hb : loads b = some (Json.obj ekvs))
    (s : String) (hp : hlookup ekvs "prompt" = some (Json.str s))
    (hts : ¬ pyStrip s = "") (hlen : s.length ≤ 4000)
    (rs : String) (rkvs : List (String × Json))
    (hr : loads rs = some (Json.obj rkvs))
    (hc : hlookup rkvs "content" = some (Json.arr []) ∨
      hlookup rkvs "content" = none) :
    invoke_bedrock_model loads modelId (BedrockCall.raw rs) (pyStrip s) =
      InvokeResult.failure "Unexpected response format from AI model" ∧
    lambda_handler loads dumps modelId (BedrockCall.raw rs) ⟨m, some b⟩ =
      create_response dumps 500
        (Json.obj [("error", Json.str "Internal Server Error"),
                   ("message",
                    Json.str "Unexpected response format from AI model")])
        none := by
  have hinv : invoke_bedrock_model loads modelId (BedrockCall.raw rs)
      (pyStrip s) =
      InvokeResult.failure "Unexpected response format from AI model" := by
    cases hc with
    | inl hempty =>
      simp only [invoke_bedrock_model, hr, extract_outcome, Json.pyContains,
        Json.pyIndexStr, Json.pyLen, hempty, Option.isSome_some]
      simp [Bind.bind, Except.bind, pure, Except.pure]
    | inr hnone =>
      simp only [invoke_bedrock_model, hr, extract_outcome, Json.pyContains,
        hnone, Option.isSome_none]
      simp [Bind.bind, Except.bind, pure, Except.pure]
  refine ⟨hinv, ?_⟩
  unfold lambda_handler
  rw [lambda_handler_try_valid loads dumps modelId (BedrockCall.raw rs) m hm
    b hne ekvs hb s hp hts hlen, hinv]
  rfl

/-- Concrete instantiation of the C5 theorem: a response whose content
list is empty is surfaced as the 500 unexpected-format envelope. -/
theorem claim5_witness :
    invoke_bedrock_model sampleLoads defaultModelId
      (BedrockCall.raw "respempty") (pyStrip "hello") =
      InvokeResult.failure "Unexpected response format from AI model" ∧
    lambda_handler sampleLoads sampleDumps defaultModelId
      (BedrockCall.raw "respempty") ⟨some "POST", some "good"⟩ =
      create_response sampleDumps 500
        (Json.obj [("error", Json.str "Internal Server Error"),
                   ("message",
                    Json.str "Unexpected response format from AI model")])
        none :=
  claim5_unexpected_format sampleLoads sampleDumps defaultModelId
    (some "POST") (by decide) "good" (by decide) _ rfl "hello" rfl
    (by decide) (by decide) "respempty" _ rfl (Or.inl rfl)
